import Mathlib

/-!
Verification of the teleop_twist_keyboard node (src/teleop_twist_keyboard.py).

The node keeps a velocity state (speed, turn, x, y, z, th), a help-text
counter and a running flag.  A keyboard thread processes one keystroke at a
time (get_key_loop, lines 145-180) and a fixed-rate timer publishes a Twist
or TwistStamped message computed from the state (publish_twist, lines
185-203).  Python floats are modelled as rationals, so 0.5, 1.1 and 0.9 are
the exact rationals 1/2, 11/10 and 9/10; all claims below are about the
algebraic structure of the computations, which the rational model captures
exactly.
-/

namespace Teleop

/-- The mutable numeric attributes of the node set up in `__init__`
(lines 100-106, 115, 119): `speed`, `turn`, the intent components
`x`, `y`, `z`, `th`, the help-text counter `status` and the `running` flag. -/
structure VelState where
  speed : ℚ
  turn : ℚ
  x : ℚ
  y : ℚ
  z : ℚ
  th : ℚ
  status : ℕ
  running : Bool
deriving DecidableEq, Repr

/-- Initial state from `__init__`: speed = 0.5, turn = 1.0, intent zero,
status 0, running true (lines 100-106, 115, 119). -/
def initVelState : VelState :=
  { speed := 1/2, turn := 1, x := 0, y := 0, z := 0, th := 0
    status := 0, running := true }

/-- `self.move_bindings` (lines 70-89), in source order. -/
def move_bindings : List (Char × ℚ × ℚ × ℚ × ℚ) :=
  [ ('i', 1, 0, 0, 0),
    ('o', 1, 0, 0, -1),
    ('j', 0, 0, 0, 1),
    ('l', 0, 0, 0, -1),
    ('u', 1, 0, 0, 1),
    (',', -1, 0, 0, 0),
    ('.', -1, 0, 0, 1),
    ('m', -1, 0, 0, -1),
    ('O', 1, -1, 0, 0),
    ('I', 1, 0, 0, 0),
    ('J', 0, 1, 0, 0),
    ('L', 0, -1, 0, 0),
    ('U', 1, 1, 0, 0),
    ('<', -1, 0, 0, 0),
    ('>', -1, -1, 0, 0),
    ('M', -1, 1, 0, 0),
    ('t', 0, 0, 1, 0),
    ('b', 0, 0, -1, 0) ]

/-- `self.speed_bindings` (lines 91-98): key maps to the pair
(linear factor, angular factor). -/
def speed_bindings : List (Char × ℚ × ℚ) :=
  [ ('q', 11/10, 11/10),
    ('z', 9/10, 9/10),
    ('w', 11/10, 1),
    ('x', 9/10, 1),
    ('e', 1, 11/10),
    ('c', 1, 9/10) ]

/-- One iteration of the dispatch in `get_key_loop` (lines 153-176): a move
key overwrites the four intent components, a speed key multiplies the two
scales and bumps the status counter mod 15, any other key zeroes the intent,
and Ctrl-C (ASCII 3) additionally clears the running flag. -/
def processKey (key : Char) (s : VelState) : VelState :=
  match List.lookup key move_bindings with
  | some b => { s with x := b.1, y := b.2.1, z := b.2.2.1, th := b.2.2.2 }
  | none =>
    match List.lookup key speed_bindings with
    | some f =>
      { s with speed := s.speed * f.1, turn := s.turn * f.2,
               status := (s.status + 1) % 15 }
    | none =>
      if key = Char.ofNat 3 then
        { s with x := 0, y := 0, z := 0, th := 0, running := false }
      else
        { s with x := 0, y := 0, z := 0, th := 0 }

/-- Processing a list of keystrokes in order through `get_key_loop`. -/
def runKeys (s : VelState) (keys : List Char) : VelState :=
  keys.foldl (fun st k => processKey k st) s

/-- A `geometry_msgs.msg.Vector3`. -/
structure Vector3 where
  x : ℚ
  y : ℚ
  z : ℚ
deriving DecidableEq, Repr

/-- A `geometry_msgs.msg.Twist`: the six velocity fields. -/
structure Twist where
  linear : Vector3
  angular : Vector3
deriving DecidableEq, Repr

/-- The header of a `TwistStamped` message: a clock stamp and a frame id. -/
structure Header where
  stamp : ℕ
  frame_id : String
deriving DecidableEq, Repr

/-- A `geometry_msgs.msg.TwistStamped`. -/
structure TwistStamped where
  header : Header
  twist : Twist
deriving DecidableEq, Repr

/-- The velocity fields written by `publish_twist` (lines 194-200):
linear = intent xyz scaled by speed, angular z = th scaled by turn,
angular x and y set to 0.0. -/
def publish_twist (s : VelState) : Twist :=
  { linear := { x := s.x * s.speed, y := s.y * s.speed, z := s.z * s.speed },
    angular := { x := 0, y := 0, z := s.th * s.turn } }

/-- In stamped mode `publish_twist` also writes the header (lines 187-190):
the current clock value (passed in here as `now`) and the configured
frame id.  The six velocity fields are set exactly as in the bare mode. -/
def publish_twist_stamped (frame_id : String) (now : ℕ) (s : VelState) :
    TwistStamped :=
  { header := { stamp := now, frame_id := frame_id },
    twist := publish_twist s }

/-- The node state visible to the publisher: the velocity state plus the
persistent outgoing message object `self.twist_msg` (line 112). -/
structure NodeState where
  vel : VelState
  msg : Twist
deriving DecidableEq, Repr

/-- The all-zero Twist. -/
def zeroTwist : Twist :=
  { linear := { x := 0, y := 0, z := 0 },
    angular := { x := 0, y := 0, z := 0 } }

/-- One publish tick (lines 185-203): overwrite the six fields of the
message object from the current state and publish it (returned second). -/
def publish_run (n : NodeState) : NodeState × Twist :=
  ({ n with msg := publish_twist n.vel }, publish_twist n.vel)

/-- `stop` (lines 205-220): overwrite the six fields of the message object
with 0.0 and publish it; the velocity attributes are not touched. -/
def stop_run (n : NodeState) : NodeState × Twist :=
  ({ n with msg := zeroTwist }, zeroTwist)

/-- Startup configuration, fixed for the session. -/
structure Config where
  stamped : Bool
  frame_id : String
deriving DecidableEq, Repr

/-- The parameter validation in `__init__` (lines 56-57): a non-empty
frame_id with stamped disabled raises, otherwise construction succeeds. -/
def initNode (stamped : Bool) (frame_id : String) : Except String Config :=
  if stamped = false ∧ frame_id ≠ "" then
    Except.error "frame_id can only be set when stamped is True"
  else
    Except.ok { stamped := stamped, frame_id := frame_id }

/-- The ways `rclpy.spin` in `main` can end (lines 234-238): a normal
return, a KeyboardInterrupt (caught), or any other exception (propagated
after the finally block). -/
inductive SpinEnd where
  | normal
  | keyboardInterrupt
  | exception
deriving DecidableEq, Repr

/-- The `finally` block of `main` (lines 239-248): regardless of how the
spin ended, clear the running flag and call `stop`, which publishes the
returned message. -/
def main_finally (_e : SpinEnd) (n : NodeState) : NodeState × Twist :=
  stop_run { n with vel := { n.vel with running := false } }

/-- The four intent components as one tuple. -/
def intent (s : VelState) : ℚ × ℚ × ℚ × ℚ := (s.x, s.y, s.z, s.th)

/-- The keys of the speed-binding table. -/
def speedKeys : List Char := speed_bindings.map Prod.fst

/-- The linear factor a speed key multiplies `speed` by (1 for non-speed
keys, which never reach that branch). -/
def linFactor (k : Char) : ℚ :=
  ((List.lookup k speed_bindings).map Prod.fst).getD 1

/-- The angular factor a speed key multiplies `turn` by. -/
def angFactor (k : Char) : ℚ :=
  ((List.lookup k speed_bindings).map (fun f => f.2)).getD 1

/-- Ordered product of the linear factors of a key sequence. -/
def linProd (keys : List Char) : ℚ := (keys.map linFactor).prod

/-- Ordered product of the angular factors of a key sequence. -/
def angProd (keys : List Char) : ℚ := (keys.map angFactor).prod

/-- The movement-binding handler (lines 154-157) is four separate field
assignments, not an atomic update: `moveWrites b s j` is the state after
the first `j` of the four writes, the prefix a concurrent publish tick can
observe when it fires between them.  `moveWrites b s 4` is the completed
update. -/
def moveWrites (b : ℚ × ℚ × ℚ × ℚ) (s : VelState) : ℕ → VelState
  | 0 => s
  | 1 => { s with x := b.1 }
  | 2 => { s with x := b.1, y := b.2.1 }
  | 3 => { s with x := b.1, y := b.2.1, z := b.2.2.1 }
  | _ => { s with x := b.1, y := b.2.1, z := b.2.2.1, th := b.2.2.2 }

/-- The six speed-binding keys are exactly q, z, w, x, e, c. -/
lemma speedKeys_cases (k : Char) (hk : k ∈ speedKeys) :
    k = 'q' ∨ k = 'z' ∨ k = 'w' ∨ k = 'x' ∨ k = 'e' ∨ k = 'c' := by
  simpa [speedKeys, speed_bindings] using hk

/-- A speed key multiplies `speed` by its linear factor and `turn` by its
angular factor. -/
lemma processKey_speedKey (k : Char) (s : VelState) (hk : k ∈ speedKeys) :
    (processKey k s).speed = s.speed * linFactor k ∧
    (processKey k s).turn = s.turn * angFactor k := by
  rcases speedKeys_cases k hk with rfl | rfl | rfl | rfl | rfl | rfl <;>
    exact ⟨rfl, rfl⟩

/-- Folding a sequence of speed keys multiplies the scales by the ordered
products of the factors. -/
lemma runKeys_product (keys : List Char) :
    ∀ s : VelState, (∀ k ∈ keys, k ∈ speedKeys) →
      (runKeys s keys).speed = s.speed * linProd keys ∧
      (runKeys s keys).turn = s.turn * angProd keys := by
  induction keys with
  | nil =>
    intro s _
    simp [runKeys, linProd, angProd]
  | cons k ks ih =>
    intro s h
    have hk : k ∈ speedKeys := h k (List.mem_cons_self k ks)
    have hstep := processKey_speedKey k s hk
    have htail := ih (processKey k s)
      (fun k2 hm => h k2 (List.mem_cons_of_mem k hm))
    constructor
    · calc (runKeys s (k :: ks)).speed
          = (runKeys (processKey k s) ks).speed := rfl
        _ = (processKey k s).speed * linProd ks := htail.1
        _ = s.speed * linFactor k * linProd ks := by rw [hstep.1]
        _ = s.speed * linProd (k :: ks) := by
            simp [linProd, mul_assoc]
    · calc (runKeys s (k :: ks)).turn
          = (runKeys (processKey k s) ks).turn := rfl
        _ = (processKey k s).turn * angProd ks := htail.2
        _ = s.turn * angFactor k * angProd ks := by rw [hstep.2]
        _ = s.turn * angProd (k :: ks) := by
            simp [angProd, mul_assoc]

/-- Claim C1: on every publish tick the emitted command has
linear = (x*speed, y*speed, z*speed), angular z = th*turn, and angular
x and y exactly zero, for every value of the state; in stamped mode the
same six fields are written. -/
theorem publish_tick_scaling (n : NodeState) :
    (publish_run n).2.linear.x = n.vel.x * n.vel.speed ∧
    (publish_run n).2.linear.y = n.vel.y * n.vel.speed ∧
    (publish_run n).2.linear.z = n.vel.z * n.vel.speed ∧
    (publish_run n).2.angular.z = n.vel.th * n.vel.turn ∧
    (publish_run n).2.angular.x = 0 ∧
    (publish_run n).2.angular.y = 0 ∧
    (∀ (fid : String) (now : ℕ),
      (publish_twist_stamped fid now n.vel).twist = (publish_run n).2) :=
  ⟨rfl, rfl, rfl, rfl, rfl, rfl, fun _ _ => rfl⟩

/-- Claim C2: a keystroke that is neither a movement-binding key nor a
speed-binding key (whitespace, unmapped symbols, Ctrl-C alike) zeroes the
velocity intent and leaves both speed scales unchanged. -/
theorem unmapped_key_resets_intent (key : Char) (s : VelState)
    (hm : List.lookup key move_bindings = none)
    (hs : List.lookup key speed_bindings = none) :
    intent (processKey key s) = (0, 0, 0, 0) ∧
    (processKey key s).speed = s.speed ∧
    (processKey key s).turn = s.turn := by
  simp only [processKey, hm, hs]
  by_cases h : key = Char.ofNat 3 <;> simp [h, intent]

/-- Witness for C2: the space key after 'u', and the Ctrl-C character. -/
theorem unmapped_key_resets_intent_witness :
    (intent (processKey ' ' (processKey 'u' initVelState)) = (0, 0, 0, 0) ∧
     (processKey ' ' (processKey 'u' initVelState)).speed =
       (processKey 'u' initVelState).speed ∧
     (processKey ' ' (processKey 'u' initVelState)).turn =
       (processKey 'u' initVelState).turn) ∧
    (intent (processKey (Char.ofNat 3) initVelState) = (0, 0, 0, 0) ∧
     (processKey (Char.ofNat 3) initVelState).speed = initVelState.speed ∧
     (processKey (Char.ofNat 3) initVelState).turn = initVelState.turn) :=
  ⟨unmapped_key_resets_intent ' ' (processKey 'u' initVelState) rfl rfl,
   unmapped_key_resets_intent (Char.ofNat 3) initVelState rfl rfl⟩

/-- Counterexample to C3 as stated: the 18 bound tuples do not take 11
distinct values (they take 16: only 'I'/'i' and '<'/',' alias). -/
theorem move_bindings_not_eleven_values :
    ¬ (move_bindings.map Prod.snd).dedup.length = 11 := by decide

/-- Claim C3 (amended): the movement table has exactly 18 distinct keys,
pressing a movement key overwrites the intent with exactly the bound
tuple, and the 18 bound tuples take exactly 16 distinct values. -/
theorem move_bindings_table (s : VelState) (k : Char) (b : ℚ × ℚ × ℚ × ℚ)
    (hk : List.lookup k move_bindings = some b) :
    move_bindings.length = 18 ∧
    (move_bindings.map Prod.fst).Nodup ∧
    intent (processKey k s) = b ∧
    (move_bindings.map Prod.snd).dedup.length = 16 := by
  refine ⟨by decide, by decide, ?_, by decide⟩
  simp only [processKey, hk]
  rfl

/-- Witness for C3: the key 'u' and its bound tuple. -/
theorem move_bindings_table_witness :
    move_bindings.length = 18 ∧
    (move_bindings.map Prod.fst).Nodup ∧
    intent (processKey 'u' initVelState) = (1, 0, 0, 1) ∧
    (move_bindings.map Prod.snd).dedup.length = 16 :=
  move_bindings_table initVelState 'u' (1, 0, 0, 1) rfl

/-- Claim C4: processing any sequence of speed-binding keystrokes from the
initial state yields speed = 0.5 times the ordered product of the linear
factors and turn = 1.0 times the ordered product of the angular factors;
the equalities are exact, so no clamping is ever applied. -/
theorem speed_sequence_product (keys : List Char)
    (h : ∀ k ∈ keys, k ∈ speedKeys) :
    (runKeys initVelState keys).speed = 1/2 * linProd keys ∧
    (runKeys initVelState keys).turn = 1 * angProd keys :=
  runKeys_product keys initVelState h

/-- Witness for C4: the sequence q, z, e. -/
theorem speed_sequence_product_witness :
    (runKeys initVelState ['q', 'z', 'e']).speed =
      1/2 * linProd ['q', 'z', 'e'] ∧
    (runKeys initVelState ['q', 'z', 'e']).turn =
      1 * angProd ['q', 'z', 'e'] :=
  speed_sequence_product ['q', 'z', 'e'] (by decide)

/-- Counterexample to C5 as stated: after pressing 'q' three times the
angular scale is not unchanged at 1.0 — the 'q' binding is (1.1, 1.1),
so the turn scale is multiplied as well and ends at 1.331. -/
theorem triple_q_turn_changes :
    (runKeys initVelState ['q', 'q', 'q']).turn ≠ 1 := by
  show ((1 : ℚ) * (11/10)) * (11/10) * (11/10) ≠ 1
  norm_num

/-- Claim C5 (amended): pressing 'q' three times from the defaults yields
speed = 0.5 times 1.1 cubed = 0.6655 and turn = 1.0 times 1.1 cubed =
1.331 (the 'q' key scales both factors). -/
theorem triple_q_scenario :
    (runKeys initVelState ['q', 'q', 'q']).speed = 1/2 * (11/10)^3 ∧
    (runKeys initVelState ['q', 'q', 'q']).speed = 1331/2000 ∧
    (runKeys initVelState ['q', 'q', 'q']).turn = 1 * (11/10)^3 ∧
    (runKeys initVelState ['q', 'q', 'q']).turn = 1331/1000 := by
  refine ⟨?_, ?_, ?_, ?_⟩
  · show ((1/2 : ℚ) * (11/10)) * (11/10) * (11/10) = 1/2 * (11/10)^3
    ring
  · show ((1/2 : ℚ) * (11/10)) * (11/10) * (11/10) = 1331/2000
    norm_num
  · show ((1 : ℚ) * (11/10)) * (11/10) * (11/10) = 1 * (11/10)^3
    ring
  · show ((1 : ℚ) * (11/10)) * (11/10) * (11/10) = 1331/1000
    norm_num

/-- Claim C6: `stop` publishes a message whose six velocity fields are all
exactly zero whatever the state holds, and the `finally` block of `main`
executes it on every session-ending path (normal spin return,
KeyboardInterrupt, or any other exception). -/
theorem shutdown_final_stop_zero (e : SpinEnd) (n : NodeState) :
    (stop_run n).2.linear.x = 0 ∧ (stop_run n).2.linear.y = 0 ∧
    (stop_run n).2.linear.z = 0 ∧ (stop_run n).2.angular.x = 0 ∧
    (stop_run n).2.angular.y = 0 ∧ (stop_run n).2.angular.z = 0 ∧
    (main_finally e n).2 = zeroTwist :=
  ⟨rfl, rfl, rfl, rfl, rfl, rfl, rfl⟩

/-- Claim C7: a non-empty frame_id with stamped disabled makes node
construction fail; stamped mode with any frame_id succeeds, and every
stamped message carries that frame_id in its header. -/
theorem frame_id_configuration (fid : String) :
    (fid ≠ "" → initNode false fid =
      Except.error "frame_id can only be set when stamped is True") ∧
    initNode true fid = Except.ok { stamped := true, frame_id := fid } ∧
    ∀ (now : ℕ) (s : VelState),
      (publish_twist_stamped fid now s).header.frame_id = fid := by
  refine ⟨?_, ?_, fun _ _ => rfl⟩
  · intro h
    simp [initNode, h]
  · simp [initNode]

/-- Witness for C7: frame_id "x" without stamped fails; "base_link" with
stamped succeeds and is carried in the header. -/
theorem frame_id_configuration_witness :
    initNode false "x" =
      Except.error "frame_id can only be set when stamped is True" ∧
    initNode true "base_link" =
      Except.ok { stamped := true, frame_id := "base_link" } ∧
    (publish_twist_stamped "base_link" 0 initVelState).header.frame_id =
      "base_link" :=
  ⟨(frame_id_configuration "x").1 (by decide),
   (frame_id_configuration "base_link").2.1,
   (frame_id_configuration "base_link").2.2 0 initVelState⟩

/-- Counterexample to C8 as stated: there is no mutual-exclusion mechanism
in the code; the movement handler is four separate field writes, and with
intent (1,0,0,1) (after 'u'), pressing 'm' (bound tuple (-1,0,0,-1))
leaves the observable intent at (-1,0,0,1) after the first write — equal
to neither the old nor the new intent, so a publish tick interleaved
there observes a partially updated intent. -/
theorem torn_intent_possible :
    List.lookup 'm' move_bindings = some (-1, 0, 0, -1) ∧
    processKey 'm' (processKey 'u' initVelState) =
      moveWrites (-1, 0, 0, -1) (processKey 'u' initVelState) 4 ∧
    intent (moveWrites (-1, 0, 0, -1) (processKey 'u' initVelState) 1) ≠
      intent (processKey 'u' initVelState) ∧
    intent (moveWrites (-1, 0, 0, -1) (processKey 'u' initVelState) 1) ≠
      intent (processKey 'm' (processKey 'u' initVelState)) := by
  refine ⟨rfl, rfl, ?_, ?_⟩ <;> decide

/-- Claim C8 (amended): a movement-binding keystroke updates the intent by
four separate sequential field writes with no mutual exclusion — the
completed four-write sequence is exactly the movement update, and when the
old intent is (1,0,0,1) and 'm' (tuple (-1,0,0,-1)) is pressed, the
observation after the first write differs from both the old and the new
intent. -/
theorem move_update_not_atomic (k : Char) (b : ℚ × ℚ × ℚ × ℚ)
    (s : VelState) (hk : List.lookup k move_bindings = some b) :
    processKey k s = moveWrites b s 4 ∧
    (intent s = (1, 0, 0, 1) → b = (-1, 0, 0, -1) →
      intent (moveWrites b s 1) ≠ intent s ∧
      intent (moveWrites b s 1) ≠ intent (moveWrites b s 4)) := by
  constructor
  · simp only [processKey, hk]
    rfl
  · intro h1 h2
    subst h2
    simp only [intent, Prod.mk.injEq, moveWrites] at h1 ⊢
    obtain ⟨hx, hy, hz, hth⟩ := h1
    constructor
    · rw [hx, hy, hz, hth]
      norm_num
    · rw [hy, hz, hth]
      norm_num

/-- Witness for C8: the concrete interleaving with old intent from 'u' and
new key 'm'. -/
theorem move_update_not_atomic_witness :
    processKey 'm' (processKey 'u' initVelState) =
      moveWrites (-1, 0, 0, -1) (processKey 'u' initVelState) 4 ∧
    (intent (moveWrites (-1, 0, 0, -1) (processKey 'u' initVelState) 1) ≠
       intent (processKey 'u' initVelState) ∧
     intent (moveWrites (-1, 0, 0, -1) (processKey 'u' initVelState) 1) ≠
       intent (moveWrites (-1, 0, 0, -1)
         (processKey 'u' initVelState) 4)) :=
  ⟨(move_update_not_atomic 'm' (-1, 0, 0, -1)
      (processKey 'u' initVelState) rfl).1,
   (move_update_not_atomic 'm' (-1, 0, 0, -1)
      (processKey 'u' initVelState) rfl).2 rfl rfl⟩

/-- Claim C9: `stop` zeroes only the outgoing message, leaving the
velocity state unchanged, so a publish tick after `stop` re-emits the
pre-stop velocity command. -/
theorem stop_preserves_velocity_state (n : NodeState) :
    (stop_run n).1.vel = n.vel ∧
    (stop_run n).2 = zeroTwist ∧
    (publish_run (stop_run n).1).2 = publish_twist n.vel :=
  ⟨rfl, rfl, rfl⟩

/-- Claim C10: 'w' and 'x' scale only `speed` (their angular factor is
exactly 1, so `turn` is exactly unchanged), 'e' and 'c' scale only `turn`,
and none of the four changes the velocity intent. -/
theorem speed_key_isolated_effect (s : VelState) :
    (List.lookup 'w' speed_bindings = some (11/10, 1) ∧
     (processKey 'w' s).speed = s.speed * (11/10) ∧
     (processKey 'w' s).turn = s.turn ∧
     intent (processKey 'w' s) = intent s) ∧
    (List.lookup 'x' speed_bindings = some (9/10, 1) ∧
     (processKey 'x' s).speed = s.speed * (9/10) ∧
     (processKey 'x' s).turn = s.turn ∧
     intent (processKey 'x' s) = intent s) ∧
    (List.lookup 'e' speed_bindings = some (1, 11/10) ∧
     (processKey 'e' s).speed = s.speed ∧
     (processKey 'e' s).turn = s.turn * (11/10) ∧
     intent (processKey 'e' s) = intent s) ∧
    (List.lookup 'c' speed_bindings = some (1, 9/10) ∧
     (processKey 'c' s).speed = s.speed ∧
     (processKey 'c' s).turn = s.turn * (9/10) ∧
     intent (processKey 'c' s) = intent s) :=
  ⟨⟨rfl, rfl, mul_one s.turn, rfl⟩,
   ⟨rfl, rfl, mul_one s.turn, rfl⟩,
   ⟨rfl, mul_one s.speed, rfl, rfl⟩,
   ⟨rfl, mul_one s.speed, rfl, rfl⟩⟩

end Teleop
